import Mathlib

/-!
Shallow embedding of the core decision logic of `IAAM_PREDICTOR.py`
(razorlong2/epimind-app): the deterministic IAAM risk engine
(`calculate_iaam_risk`), its severity sub-scorers (`calculate_sofa_detailed`,
`calculate_qsofa`, `score_laboratory_markers`), the OCR quality estimator
(`estimate_quality`) and the organism/resistance detection part of
`extract_medical_values`.

Numeric clinical values are modelled as rationals (Python numbers),
integer scores as `Int`, Python dicts as association lists in insertion
order, and Python's `None`-able lookups as `Option`.
-/

namespace IAAM

/-- Device entry of the payload's `dispozitive` dict:
`{"prezent": bool, "zile": number}` (`zile` may be missing, the code uses
`info.get("zile", 0) or 0`). -/
structure DeviceInfo where
  prezent : Bool
  zile : Option ℚ
deriving DecidableEq

/-- A value stored in the `analize` dict. `num q` stands for any Python value
on which `float(·)` succeeds and yields `q`; `invalid s` stands for a value
(rendered as the string `s`) on which `float(·)` raises, which the code
catches locally. -/
inductive LabValue where
  | num (q : ℚ)
  | invalid (s : String)
deriving DecidableEq

/-- Python truthiness of a lab value: `0`/`0.0` and the empty string are
falsy, everything else truthy. -/
def LabValue.falsy : LabValue → Bool
  | .num q => q == 0
  | .invalid s => s == ""

/-- The `analize` dict: association list in insertion order (dict keys are
unique, `get` returns the first binding). -/
abbrev Labs := List (String × LabValue)

/-- The structured clinical record passed to `calculate_iaam_risk`.
Fields the code reads with `payload.get(key, default)` (or `or`-defaults)
are `Option`s; the corresponding default is applied inside the functions,
mirroring the source. -/
structure Payload where
  ore_spitalizare : Option ℚ := none
  dispozitive : Option (List (String × DeviceInfo)) := none
  cultura_pozitiva : Bool := false
  bacterie : Option String := none
  profil_rezistenta : Option (List String) := none
  pao2_fio2 : Option ℚ := none
  trombocite : Option ℚ := none
  bilirubina : Option ℚ := none
  hipotensiune : Bool := false
  vasopresoare : Bool := false
  glasgow : Option ℚ := none
  creatinina : Option ℚ := none
  diureza_ml_kg_h : Option ℚ := none
  tas : Option ℚ := none
  fr : Option ℚ := none
  analize : Labs := []

/-- The six SOFA components returned by `calculate_sofa_detailed`. -/
structure SofaComponents where
  respirator : ℤ
  coagulare : ℤ
  hepatic : ℤ
  cardiovascular : ℤ
  snc : ℤ
  renal : ℤ
deriving DecidableEq

/-- `calculate_sofa_detailed` (IAAM_PREDICTOR.py lines 356-416): extended
SOFA with component breakdown. The Python body is a sequence of
non-exclusive `if` statements each overwriting the component; the `let`
chain reproduces that sequence literally. -/
def calculate_sofa_detailed (data : Payload) : ℤ × SofaComponents :=
  let pao2_fio2 := data.pao2_fio2.getD 400
  let resp1 : ℤ := if pao2_fio2 < 400 then 1 else 0
  let resp2 : ℤ := if pao2_fio2 < 300 then 2 else resp1
  let resp3 : ℤ := if pao2_fio2 < 200 then 3 else resp2
  let resp : ℤ := if pao2_fio2 < 100 then 4 else resp3
  let platelets := data.trombocite.getD 200
  let coag1 : ℤ := if platelets < 150 then 1 else 0
  let coag2 : ℤ := if platelets < 100 then 2 else coag1
  let coag3 : ℤ := if platelets < 50 then 3 else coag2
  let coag : ℤ := if platelets < 20 then 4 else coag3
  let bilirubin := data.bilirubina.getD 1
  let hep1 : ℤ := if bilirubin ≥ 1.2 then 1 else 0
  let hep2 : ℤ := if bilirubin ≥ 2.0 then 2 else hep1
  let hep3 : ℤ := if bilirubin ≥ 6.0 then 3 else hep2
  let hep : ℤ := if bilirubin ≥ 12.0 then 4 else hep3
  let cv1 : ℤ := if data.hipotensiune then max 0 2 else 0
  let cv : ℤ := if data.vasopresoare then max cv1 3 else cv1
  let glasgow := data.glasgow.getD 15
  let snc1 : ℤ := if glasgow < 15 then 1 else 0
  let snc2 : ℤ := if glasgow < 13 then 2 else snc1
  let snc3 : ℤ := if glasgow < 10 then 3 else snc2
  let snc : ℤ := if glasgow < 6 then 4 else snc3
  let creatinine := data.creatinina.getD 1
  let urine_output := data.diureza_ml_kg_h.getD 1
  let ren1 : ℤ := if creatinine ≥ 1.2 ∨ urine_output < 0.5 then 1 else 0
  let ren2 : ℤ := if creatinine ≥ 2.0 then 2 else ren1
  let ren3 : ℤ := if creatinine ≥ 3.5 ∨ urine_output < 0.3 then 3 else ren2
  let ren : ℤ := if creatinine ≥ 5.0 ∨ urine_output < 0.1 then 4 else ren3
  let comps : SofaComponents := ⟨resp, coag, hep, cv, snc, ren⟩
  (resp + coag + hep + cv + snc + ren, comps)

/-- `calculate_qsofa` (lines 418-430): one point each for TAS<100, FR≥22,
Glasgow<15. -/
def calculate_qsofa (data : Payload) : ℤ :=
  let tas := data.tas.getD 120
  let fr := data.fr.getD 18
  let glasgow := data.glasgow.getD 15
  (if tas < 100 then 1 else 0) + (if fr ≥ 22 then 1 else 0) +
    (if glasgow < 15 then 1 else 0)

/-- The WBC block of `score_laboratory_markers` (lines 446-459). -/
def score_wbc (labs : Labs) : ℤ × List String :=
  match labs.lookup "wbc" with
  | none => (0, [])
  | some (.num w) =>
    if w ≥ 12 then (10, ["Leucocitoză: WBC " ++ toString w ++ " (>12) +10"])
    else if w < 4 then (10, ["Leucopenie: WBC " ++ toString w ++ " (<4) +10"])
    else (0, ["WBC: " ++ toString w ++ " (normal) +0"])
  | some (.invalid s) => (0, ["WBC: valoare nevalidă: " ++ s])

/-- The CRP block of `score_laboratory_markers` (lines 461-473). -/
def score_crp (labs : Labs) : ℤ × List String :=
  match labs.lookup "crp" with
  | none => (0, [])
  | some (.num c) =>
    if c ≥ 100 then (15, ["CRP " ++ toString c ++ " mg/L — mare inflamație (+15)"])
    else if c ≥ 50 then (8, ["CRP " ++ toString c ++ " mg/L — moderat (+8)"])
    else (0, ["CRP " ++ toString c ++ " mg/L — scăzut (+0)"])
  | some (.invalid s) => (0, ["CRP: valoare nevalidă: " ++ s])

/-- The effective procalcitonin value: Python's
`labs.get('procalcitonina') or labs.get('pct')` — a falsy (e.g. `0.0`)
`procalcitonina` value falls through to the `pct` key. -/
def pct_value (labs : Labs) : Option LabValue :=
  match labs.lookup "procalcitonina" with
  | some v => if v.falsy then labs.lookup "pct" else some v
  | none => labs.lookup "pct"

/-- The procalcitonin block of `score_laboratory_markers` (lines 475-487). -/
def score_pct (labs : Labs) : ℤ × List String :=
  match pct_value labs with
  | none => (0, [])
  | some (.num p) =>
    if p ≥ 2.0 then
      (20, ["Procalcitonină " ++ toString p ++ " ng/mL — mare probabilitate infecție severă (+20)"])
    else if p ≥ 0.5 then
      (10, ["Procalcitonină " ++ toString p ++ " ng/mL — sugestivă (+10)"])
    else (0, ["Procalcitonină " ++ toString p ++ " ng/mL — scăzută (+0)"])
  | some (.invalid s) => (0, ["PCT: valoare nevalidă: " ++ s])

/-- `score_laboratory_markers` (lines 435-490): the three marker blocks in
sequence, score clamped to ≥0 at the end (`max(0, int(score))`). -/
def score_laboratory_markers (labs : Labs) : ℤ × List String :=
  if labs = [] then (0, ["Fără analize disponibile"])
  else
    let w := score_wbc labs
    let c := score_crp labs
    let p := score_pct labs
    (max 0 (w.1 + c.1 + p.1), w.2 ++ c.2 ++ p.2)

/-- The device base-weight dict `device_weights` of `calculate_iaam_risk`
(line 511); `.get(dev, 5)` gives 5 for unknown kinds. -/
def device_weights (dev : String) : ℤ :=
  if dev = "CVC" then 20
  else if dev = "Ventilatie" then 25
  else if dev = "Sonda urinara" then 15
  else if dev = "Traheostomie" then 20
  else if dev = "Drenaj" then 10
  else if dev = "PEG" then 12
  else 5

/-- The duration bonus of the device block (line 516):
`10 if zile > 7 else 5 if zile > 3 else 0`. -/
def duration_bonus (zile : ℚ) : ℤ :=
  if zile > 7 then 10 else if zile > 3 then 5 else 0

/-- Per-device contribution `add = base + extra` (line 517). -/
def device_add (dev : String) (zile : ℚ) : ℤ :=
  device_weights dev + duration_bonus zile

/-- One iteration of the device loop (lines 512-519). -/
def device_step (acc : ℤ × List String) (kv : String × DeviceInfo) :
    ℤ × List String :=
  if kv.2.prezent then
    let zile := kv.2.zile.getD 0
    let add := device_add kv.1 zile
    (acc.1 + add,
      acc.2 ++ [kv.1 ++ " (" ++ toString zile ++ " zile): +" ++ toString add])
  else acc

/-- The device loop of `calculate_iaam_risk` (lines 511-519). -/
def device_points (devs : List (String × DeviceInfo)) : ℤ × List String :=
  devs.foldl device_step (0, [])

/-- The resistance-weight dict of `calculate_iaam_risk` (line 527);
`.get(rez, 10)` gives 10 for unknown tags. -/
def rez_pts (r : String) : ℤ :=
  if r = "ESBL" then 15
  else if r = "CRE" then 25
  else if r = "KPC" then 30
  else if r = "NDM" then 35
  else if r = "MRSA" then 20
  else if r = "VRE" then 25
  else if r = "XDR" then 30
  else if r = "PDR" then 40
  else 10

/-- One iteration of the resistance loop (lines 526-529): adds the tag's
table weight and a rationale line. -/
def micro_step (acc : ℤ × List String) (rez : String) : ℤ × List String :=
  (acc.1 + rez_pts rez,
    acc.2 ++ ["Rezistență " ++ rez ++ ": +" ++ toString (rez_pts rez)])

/-- The microbiology block of `calculate_iaam_risk` (lines 522-529),
continued: fold of `micro_step` over the listed resistance tags, starting
from the flat +15 of a positive culture. -/
def micro_points (p : Payload) : ℤ × List String :=
  if p.cultura_pozitiva then
    let agent := p.bacterie.getD ""
    (p.profil_rezistenta.getD []).foldl micro_step
      (15, ["Cultură pozitivă: " ++ agent ++ " (+15)"])
  else (0, [])

/-- The temporal block of `calculate_iaam_risk` (lines 503-508), reached
only for `hours ≥ 48`. -/
def temporal_points (hours : ℚ) : ℤ × String :=
  if 48 ≤ hours ∧ hours < 72 then
    (5, "Timp spitalizare: " ++ toString hours ++ "h (+5)")
  else if hours < 168 then
    (10, "Timp spitalizare: " ++ toString hours ++ "h (+10)")
  else
    (15, "Timp spitalizare: " ++ toString hours ++ "h (+15)")

/-- Final level/recommendation classification of `calculate_iaam_risk`
(lines 550-569). -/
def level_recs (score : ℤ) : String × List String :=
  if score ≥ 120 then
    ("CRITIC",
      ["Izolare imediată și notificare CPIAAM",
       "Consult infecționist urgent",
       "Recoltare probe și inițiere ATB empirică largă conform protocoalelor locale",
       "Monitorizare intensivă și considerare terapie suport (vasopresoare, ventilație)"])
  else if score ≥ 90 then
    ("FOARTE ÎNALT",
      ["Consult infecționist în 2h", "Recoltare culturi și antibiogramă",
       "Izolare preventivă"])
  else if score ≥ 60 then
    ("ÎNALT",
      ["Supraveghere activă IAAM", "Recoltare culturi țintite",
       "Monitorizare parametri la 8h"])
  else if score ≥ 35 then
    ("MODERAT",
      ["Monitorizare extinsă", "Documentare completă în fișa de observație"])
  else
    ("SCĂZUT", ["Monitorizare standard", "Precauții standard"])

/-- `calculate_iaam_risk` (lines 493-571): the deterministic IAAM risk
engine. Returns `(score, level, details, recommendations)`. -/
def calculate_iaam_risk (payload : Payload) :
    ℤ × String × List String × List String :=
  let hours := payload.ore_spitalizare.getD 0
  if hours < 48 then
    (0, "NU IAAM (temporal)",
      ["Internare " ++ toString hours ++ "h <48h: criteriu temporal negat"],
      ["Monitorizare clinică"])
  else
    let t := temporal_points hours
    let d := device_points (payload.dispozitive.getD [])
    let m := micro_points payload
    let sofa := calculate_sofa_detailed payload
    let sofaPts : ℤ := if sofa.1 > 0 then sofa.1 * 3 else 0
    let sofaDet : List String :=
      if sofa.1 > 0 then
        ["SOFA: " ++ toString sofa.1 ++ " (+" ++ toString (sofa.1 * 3) ++ ")"]
      else []
    let q := calculate_qsofa payload
    let qPts : ℤ := if q ≥ 2 then 15 else 0
    let qDet : List String :=
      if q ≥ 2 then ["qSOFA: " ++ toString q ++ " (+15)"] else []
    let lab := score_laboratory_markers payload.analize
    let labPts : ℤ := if lab.1 > 0 then lab.1 else 0
    let labDet : List String :=
      if lab.1 > 0 then ("Markeri biologici: +" ++ toString lab.1) :: lab.2
      else []
    let score := t.1 + d.1 + m.1 + sofaPts + qPts + labPts
    let lr := level_recs score
    (score, lr.1, t.2 :: (d.2 ++ m.2 ++ sofaDet ++ qDet ++ labDet), lr.2)

end IAAM

namespace IAAM

/-- The all-default payload (every optional field absent). -/
def payload0 : Payload := {}

/-- C1: hours < 48 short-circuits the engine. -/
theorem temporal_gate_below_48 (p : Payload)
    (h : p.ore_spitalizare.getD 0 < 48) :
    (calculate_iaam_risk p).1 = 0 ∧
    (calculate_iaam_risk p).2.1 = "NU IAAM (temporal)" ∧
    (calculate_iaam_risk p).2.2.1.length = 1 ∧
    (calculate_iaam_risk p).2.2.2 = ["Monitorizare clinică"] := by
  unfold calculate_iaam_risk
  rw [if_pos h]
  exact ⟨rfl, rfl, rfl, rfl⟩

/-- C1 witness at the all-default payload (hours absent, so 0). -/
theorem temporal_gate_below_48_witness :
    (calculate_iaam_risk payload0).1 = 0 ∧
    (calculate_iaam_risk payload0).2.1 = "NU IAAM (temporal)" ∧
    (calculate_iaam_risk payload0).2.2.1.length = 1 ∧
    (calculate_iaam_risk payload0).2.2.2 = ["Monitorizare clinică"] :=
  temporal_gate_below_48 payload0 (by decide)

end IAAM

namespace IAAM

/-- Folding the resistance loop adds exactly the sum of the table weights
of the listed tags to the accumulator's score. -/
theorem micro_foldl_fst (l : List String) (a : ℤ × List String) :
    (l.foldl micro_step a).1 = a.1 + (l.map rez_pts).sum := by
  induction l generalizing a with
  | nil => simp
  | cons r t ih =>
    simp only [List.foldl_cons, List.map_cons, List.sum_cons, ih, micro_step]
    ring

/-- C3: microbiology scoring — +15 flat for a positive culture plus the
table weight of every listed tag (summed with no deduplication, so a
duplicated tag counts twice); the table values; unknown tags weigh 10;
CRE > ESBL; 40 (PDR) is the maximal per-tag weight; culture-negative
records get no microbiology points. -/
theorem microbiology_weights :
    (∀ p : Payload, p.cultura_pozitiva = true →
      (micro_points p).1 = 15 + ((p.profil_rezistenta.getD []).map rez_pts).sum) ∧
    (∀ p : Payload, p.cultura_pozitiva = false → (micro_points p).1 = 0) ∧
    (rez_pts "ESBL" = 15 ∧ rez_pts "CRE" = 25 ∧ rez_pts "KPC" = 30 ∧
      rez_pts "NDM" = 35 ∧ rez_pts "MRSA" = 20 ∧ rez_pts "VRE" = 25 ∧
      rez_pts "XDR" = 30 ∧ rez_pts "PDR" = 40) ∧
    (∀ t : String, t ≠ "ESBL" → t ≠ "CRE" → t ≠ "KPC" → t ≠ "NDM" →
      t ≠ "MRSA" → t ≠ "VRE" → t ≠ "XDR" → t ≠ "PDR" → rez_pts t = 10) ∧
    (∀ (t : String) (l : List String),
      ((t :: t :: l).map rez_pts).sum = rez_pts t + rez_pts t + (l.map rez_pts).sum) ∧
    rez_pts "ESBL" < rez_pts "CRE" ∧
    (∀ t : String, rez_pts t ≤ 40) := by
  refine ⟨?_, ?_, by decide, ?_, ?_, by decide, ?_⟩
  · intro p h
    simp only [micro_points, h, if_true, micro_foldl_fst]
  · intro p h
    simp [micro_points, h]
  · intro t h1 h2 h3 h4 h5 h6 h7 h8
    simp [rez_pts, h1, h2, h3, h4, h5, h6, h7, h8]
  · intro t l
    simp [List.sum_cons]
    ring
  · intro t
    unfold rez_pts
    split_ifs <;> norm_num

/-- C3 witness: a concrete culture-positive payload with a duplicated CRE
tag, and a concrete unknown tag. -/
theorem microbiology_weights_witness :
    (micro_points
      { cultura_pozitiva := true
        profil_rezistenta := some ["CRE", "CRE"] }).1 =
      15 + ((["CRE", "CRE"]).map rez_pts).sum ∧
    rez_pts "AmpC" = 10 ∧
    (micro_points
      { cultura_pozitiva := false
        profil_rezistenta := some ["CRE"] }).1 = 0 :=
  ⟨microbiology_weights.1 _ rfl,
   microbiology_weights.2.2.2.1 "AmpC" (by decide) (by decide) (by decide)
     (by decide) (by decide) (by decide) (by decide) (by decide),
   microbiology_weights.2.1 _ rfl⟩

/-- C5: the per-device contribution is the kind's base weight plus the
duration bonus, and is monotonically non-decreasing in days present for a
fixed device kind. -/
theorem device_contribution_monotone :
    (∀ (dev : String) (z : ℚ),
      device_add dev z = device_weights dev + duration_bonus z) ∧
    (∀ (dev : String) (z1 z2 : ℚ), z1 ≤ z2 →
      device_add dev z1 ≤ device_add dev z2) := by
  refine ⟨fun dev z => rfl, fun dev z1 z2 h => ?_⟩
  unfold device_add duration_bonus
  have hb : (if z1 > 7 then (10:ℤ) else if z1 > 3 then 5 else 0) ≤
      (if z2 > 7 then 10 else if z2 > 3 then 5 else 0) := by
    split_ifs <;> linarith
  linarith

/-- C5 witness: concrete CVC durations 2 ≤ 10 days. -/
theorem device_contribution_monotone_witness :
    device_add "CVC" 2 = device_weights "CVC" + duration_bonus 2 ∧
    device_add "CVC" 2 ≤ device_add "CVC" 10 :=
  ⟨device_contribution_monotone.1 "CVC" 2,
   device_contribution_monotone.2 "CVC" 2 10 (by norm_num)⟩

/-- A device list in which no device is marked present contributes nothing
to the fold. -/
theorem foldl_device_step_absent (devs : List (String × DeviceInfo))
    (a : ℤ × List String) (h : ∀ kv ∈ devs, kv.2.prezent = false) :
    devs.foldl device_step a = a := by
  induction devs generalizing a with
  | nil => rfl
  | cons kv t ih =>
    have hkv : kv.2.prezent = false := h kv (List.mem_cons_self kv t)
    have ht : ∀ kv' ∈ t, kv'.2.prezent = false :=
      fun kv' hm => h kv' (List.mem_cons_of_mem kv hm)
    simp only [List.foldl_cons, device_step, hkv, Bool.false_eq_true,
      if_false, ih _ ht]

/-- A payload whose non-temporal inputs all sit at the clinically normal
defaults of `init_defaults` (lines 574-588): no positive culture, empty
lab panel, and normal organ-function values; `diureza_ml_kg_h` is absent,
as in `collect_payload`. -/
def normal_payload (hours : ℚ) (devs : List (String × DeviceInfo)) : Payload :=
  { ore_spitalizare := some hours
    dispozitive := some devs
    pao2_fio2 := some 400
    trombocite := some 200
    bilirubina := some 1
    glasgow := some 15
    creatinina := some 1
    tas := some 120
    fr := some 18 }

/-- C4: the temporal weights are +5 on [48,72), +10 on [72,168), +15 on
[168,∞); the temporal rationale line heads the detail trail whenever the
gate passes; and with hours ≥ 168, no present device, no microbiology and
no laboratory data (all else normal) the aggregate score is exactly 15. -/
theorem temporal_weights :
    (∀ h : ℚ, 48 ≤ h → h < 72 → (temporal_points h).1 = 5) ∧
    (∀ h : ℚ, 72 ≤ h → h < 168 → (temporal_points h).1 = 10) ∧
    (∀ h : ℚ, 168 ≤ h → (temporal_points h).1 = 15) ∧
    (∀ p : Payload, ¬(p.ore_spitalizare.getD 0 < 48) →
      (calculate_iaam_risk p).2.2.1.head? =
        some (temporal_points (p.ore_spitalizare.getD 0)).2) ∧
    (∀ (h : ℚ) (devs : List (String × DeviceInfo)), 168 ≤ h →
      (∀ kv ∈ devs, kv.2.prezent = false) →
      (calculate_iaam_risk (normal_payload h devs)).1 = 15) := by
  refine ⟨?_, ?_, ?_, ?_, ?_⟩
  · intro h h1 h2
    simp only [temporal_points]
    rw [if_pos ⟨h1, h2⟩]
  · intro h h1 h2
    simp only [temporal_points]
    rw [if_neg (by rintro ⟨_, hlt⟩; linarith), if_pos h2]
  · intro h h1
    simp only [temporal_points]
    rw [if_neg (by rintro ⟨_, hlt⟩; linarith), if_neg (by linarith)]
  · intro p h
    unfold calculate_iaam_risk
    rw [if_neg h]
    rfl
  · intro h devs hh hdev
    have hng : ¬((normal_payload h devs).ore_spitalizare.getD 0 < 48) := by
      simp only [normal_payload, Option.getD_some]
      linarith
    have hdp : device_points devs = (0, []) :=
      foldl_device_step_absent devs (0, []) hdev
    have htp : (temporal_points h).1 = 15 := by
      simp only [temporal_points]
      rw [if_neg (by rintro ⟨_, hlt⟩; linarith), if_neg (by linarith)]
    have hsofa : calculate_sofa_detailed (normal_payload h devs) =
        (0, ⟨0, 0, 0, 0, 0, 0⟩) := by
      norm_num [calculate_sofa_detailed, normal_payload]
    have hq : calculate_qsofa (normal_payload h devs) = 0 := by
      norm_num [calculate_qsofa, normal_payload]
    have hlab : score_laboratory_markers (normal_payload h devs).analize =
        (0, ["Fără analize disponibile"]) := rfl
    unfold calculate_iaam_risk
    rw [if_neg hng]
    show (temporal_points ((normal_payload h devs).ore_spitalizare.getD 0)).1 +
        (device_points ((normal_payload h devs).dispozitive.getD [])).1 +
        (micro_points (normal_payload h devs)).1 + _ + _ + _ = 15
    have e1 : (normal_payload h devs).ore_spitalizare.getD 0 = h := rfl
    have e2 : (normal_payload h devs).dispozitive.getD [] = devs := rfl
    rw [e1, e2, htp, hdp, hsofa, hq, hlab]
    norm_num [micro_points, normal_payload]

/-- C4 witness: hours = 200 with an explicit absent-device list. -/
theorem temporal_weights_witness :
    (temporal_points 50).1 = 5 ∧ (temporal_points 96).1 = 10 ∧
    (temporal_points 200).1 = 15 ∧
    (calculate_iaam_risk
      (normal_payload 200 [("CVC", ⟨false, some 0⟩)])).1 = 15 :=
  ⟨temporal_weights.1 50 (by norm_num) (by norm_num),
   temporal_weights.2.1 96 (by norm_num) (by norm_num),
   temporal_weights.2.2.1 200 (by norm_num),
   temporal_weights.2.2.2.2 200 [("CVC", ⟨false, some 0⟩)] (by norm_num)
     (by intro kv hm; simp at hm; rw [hm])⟩

end IAAM

namespace IAAM

/-- The end-to-end scenario record: hours 96, CVC present 10 days,
culture-positive Klebsiella pneumoniae with resistance ["CRE"],
PaO2/FiO2 150, platelets 90, everything else at the documented defaults of
`init_defaults`/`collect_payload`. -/
def c2_payload : Payload :=
  { ore_spitalizare := some 96
    dispozitive := some
      [("CVC", ⟨true, some 10⟩), ("Ventilatie", ⟨false, some 0⟩),
       ("Sonda urinara", ⟨false, some 0⟩), ("Traheostomie", ⟨false, some 0⟩),
       ("Drenaj", ⟨false, some 0⟩), ("PEG", ⟨false, some 0⟩)]
    cultura_pozitiva := true
    bacterie := some "Klebsiella pneumoniae"
    profil_rezistenta := some ["CRE"]
    pao2_fio2 := some 150
    trombocite := some 90
    bilirubina := some 1
    glasgow := some 15
    creatinina := some 1
    tas := some 120
    fr := some 18 }

/-- C2 counterexample: on the scenario record the code's SOFA gives
respiratory = 3 (150 < 200) and coagulation = 2 (90 < 100), not the 2 and 1
the claim states, so the organ-dysfunction contribution is 5×3 = 15, not 9. -/
theorem end_to_end_sofa_counterexample :
    (calculate_sofa_detailed c2_payload).2.respirator = 3 ∧
    (calculate_sofa_detailed c2_payload).2.coagulare = 2 ∧
    ¬((calculate_sofa_detailed c2_payload).2.respirator = 2 ∧
      (calculate_sofa_detailed c2_payload).2.coagulare = 1) ∧
    (calculate_sofa_detailed c2_payload).1 * 3 = 15 := by
  norm_num [calculate_sofa_detailed, c2_payload]

/-- C2 (amended): on the scenario record — temporal +10, device 20+10 = 30,
microbiology 15+25 = 40, SOFA components respiratory 3 and coagulation 2,
organ-dysfunction contribution 5×3 = 15 — the aggregate is exactly 95 ≥ 89
and the level is "FOARTE ÎNALT" (VERY HIGH). -/
theorem end_to_end_scenario :
    (temporal_points 96).1 = 10 ∧
    device_add "CVC" 10 = 30 ∧
    (micro_points c2_payload).1 = 40 ∧
    (calculate_sofa_detailed c2_payload).1 = 5 ∧
    (calculate_iaam_risk c2_payload).1 = 95 ∧
    89 ≤ (calculate_iaam_risk c2_payload).1 ∧
    (calculate_iaam_risk c2_payload).2.1 = "FOARTE ÎNALT" := by
  norm_num [calculate_iaam_risk, c2_payload, temporal_points, device_points,
    device_step, device_add, device_weights, duration_bonus, micro_points,
    micro_step, calculate_sofa_detailed, calculate_qsofa,
    score_laboratory_markers, level_recs, show rez_pts "CRE" = 25 from by decide]

/-- A normal-range WBC entry (4 ≤ WBC < 12) scores 0. -/
theorem score_wbc_normal (labs : Labs)
    (h : ∀ v, labs.lookup "wbc" = some v →
      ∃ q, v = LabValue.num q ∧ 4 ≤ q ∧ q < 12) :
    (score_wbc labs).1 = 0 := by
  unfold score_wbc
  split
  · rfl
  · next w heq =>
    obtain ⟨q, hq, h1, h2⟩ := h _ heq
    injection hq with hwq
    subst hwq
    rw [if_neg (by linarith), if_neg (by linarith)]
  · next s heq =>
    obtain ⟨q, hq, -, -⟩ := h _ heq
    cases hq

/-- A normal-range CRP entry (< 50) scores 0. -/
theorem score_crp_normal (labs : Labs)
    (h : ∀ v, labs.lookup "crp" = some v →
      ∃ q, v = LabValue.num q ∧ q < 50) :
    (score_crp labs).1 = 0 := by
  unfold score_crp
  split
  · rfl
  · next c heq =>
    obtain ⟨q, hq, h1⟩ := h _ heq
    injection hq with hcq
    subst hcq
    rw [if_neg (by linarith), if_neg (by linarith)]
  · next s heq =>
    obtain ⟨q, hq, -⟩ := h _ heq
    cases hq

/-- A normal-range effective procalcitonin (< 0.5) scores 0. -/
theorem score_pct_normal (labs : Labs)
    (h : ∀ v, pct_value labs = some v →
      ∃ q, v = LabValue.num q ∧ q < 0.5) :
    (score_pct labs).1 = 0 := by
  unfold score_pct
  split
  · rfl
  · next p heq =>
    obtain ⟨q, hq, h1⟩ := h _ heq
    injection hq with hpq
    subst hpq
    rw [if_neg (by linarith), if_neg (by linarith)]
  · next s heq =>
    obtain ⟨q, hq, -⟩ := h _ heq
    cases hq

/-- C7: the laboratory score is never negative; a panel whose present
markers are all numeric and in normal range scores 0; and an invalid value
at any scored marker (WBC, CRP, or the effective procalcitonin) is caught
locally: it contributes a rationale line noting the invalid value, scores
0 for that marker, and leaves the other two blocks scored as usual. -/
theorem laboratory_score_properties :
    (∀ labs : Labs, 0 ≤ (score_laboratory_markers labs).1) ∧
    (∀ labs : Labs,
      (∀ v, labs.lookup "wbc" = some v →
        ∃ q, v = LabValue.num q ∧ 4 ≤ q ∧ q < 12) →
      (∀ v, labs.lookup "crp" = some v → ∃ q, v = LabValue.num q ∧ q < 50) →
      (∀ v, pct_value labs = some v → ∃ q, v = LabValue.num q ∧ q < 0.5) →
      (score_laboratory_markers labs).1 = 0) ∧
    (∀ (labs : Labs) (s : String), labs.lookup "wbc" = some (.invalid s) →
      score_wbc labs = (0, ["WBC: valoare nevalidă: " ++ s]) ∧
      (score_laboratory_markers labs).1 =
        max 0 ((score_crp labs).1 + (score_pct labs).1) ∧
      ("WBC: valoare nevalidă: " ++ s) ∈ (score_laboratory_markers labs).2) ∧
    (∀ (labs : Labs) (s : String), labs.lookup "crp" = some (.invalid s) →
      score_crp labs = (0, ["CRP: valoare nevalidă: " ++ s]) ∧
      (score_laboratory_markers labs).1 =
        max 0 ((score_wbc labs).1 + (score_pct labs).1) ∧
      ("CRP: valoare nevalidă: " ++ s) ∈ (score_laboratory_markers labs).2) ∧
    (∀ (labs : Labs) (s : String), pct_value labs = some (.invalid s) →
      score_pct labs = (0, ["PCT: valoare nevalidă: " ++ s]) ∧
      (score_laboratory_markers labs).1 =
        max 0 ((score_wbc labs).1 + (score_crp labs).1) ∧
      ("PCT: valoare nevalidă: " ++ s) ∈ (score_laboratory_markers labs).2) := by
  refine ⟨?_, ?_, ?_, ?_, ?_⟩
  · intro labs
    by_cases hl : labs = []
    · simp [score_laboratory_markers, hl]
    · simp only [score_laboratory_markers, if_neg hl]
      exact le_max_left _ _
  · intro labs hw hc hp
    by_cases hl : labs = []
    · simp [score_laboratory_markers, hl]
    · simp only [score_laboratory_markers, if_neg hl]
      rw [score_wbc_normal labs hw, score_crp_normal labs hc,
        score_pct_normal labs hp]
      norm_num
  · intro labs s h
    have hne : labs ≠ [] := by
      intro he
      rw [he] at h
      cases h
    have hwbc : score_wbc labs = (0, ["WBC: valoare nevalidă: " ++ s]) := by
      unfold score_wbc
      rw [h]
    refine ⟨hwbc, ?_, ?_⟩
    · simp only [score_laboratory_markers, if_neg hne, hwbc]
      norm_num
    · simp only [score_laboratory_markers, if_neg hne, hwbc]
      simp
  · intro labs s h
    have hne : labs ≠ [] := by
      intro he
      rw [he] at h
      cases h
    have hcrp : score_crp labs = (0, ["CRP: valoare nevalidă: " ++ s]) := by
      unfold score_crp
      rw [h]
    refine ⟨hcrp, ?_, ?_⟩
    · simp only [score_laboratory_markers, if_neg hne, hcrp]
      norm_num
    · simp only [score_laboratory_markers, if_neg hne, hcrp]
      simp
  · intro labs s h
    have hne : labs ≠ [] := by
      intro he
      have hemp : pct_value ([] : Labs) = none := rfl
      rw [he, hemp] at h
      cases h
    have hpct : score_pct labs = (0, ["PCT: valoare nevalidă: " ++ s]) := by
      unfold score_pct
      rw [h]
    refine ⟨hpct, ?_, ?_⟩
    · simp only [score_laboratory_markers, if_neg hne, hpct]
      norm_num
    · simp only [score_laboratory_markers, if_neg hne, hpct]
      simp

/-- A concrete all-normal lab panel. -/
def labs_normal : Labs := [("wbc", .num 8), ("crp", .num 10)]

/-- A concrete panel whose WBC entry is invalid next to a scoring CRP. -/
def labs_invalid : Labs := [("wbc", .invalid "abc"), ("crp", .num 120)]

/-- A concrete panel with invalid CRP and procalcitonin entries next to a
scoring WBC. -/
def labs_invalid2 : Labs :=
  [("wbc", .num 15), ("crp", .invalid "x"), ("pct", .invalid "y")]

/-- C7 witness: a concrete all-normal panel, a concrete panel whose WBC
entry is invalid next to a scoring CRP of 120, and a concrete panel whose
CRP and procalcitonin entries are invalid next to a scoring WBC of 15. -/
theorem laboratory_score_properties_witness :
    (score_laboratory_markers labs_normal).1 = 0 ∧
    (0:ℤ) ≤ (score_laboratory_markers labs_normal).1 ∧
    (score_laboratory_markers labs_invalid).1 =
      max 0 ((score_crp labs_invalid).1 + (score_pct labs_invalid).1) ∧
    ("WBC: valoare nevalidă: " ++ "abc") ∈
      (score_laboratory_markers labs_invalid).2 ∧
    (score_laboratory_markers labs_invalid2).1 =
      max 0 ((score_wbc labs_invalid2).1 + (score_pct labs_invalid2).1) ∧
    ("CRP: valoare nevalidă: " ++ "x") ∈
      (score_laboratory_markers labs_invalid2).2 ∧
    (score_laboratory_markers labs_invalid2).1 =
      max 0 ((score_wbc labs_invalid2).1 + (score_crp labs_invalid2).1) ∧
    ("PCT: valoare nevalidă: " ++ "y") ∈
      (score_laboratory_markers labs_invalid2).2 := by
  refine ⟨?_, laboratory_score_properties.1 _, ?_, ?_,
    (laboratory_score_properties.2.2.2.1 labs_invalid2 "x" rfl).2.1,
    (laboratory_score_properties.2.2.2.1 labs_invalid2 "x" rfl).2.2,
    (laboratory_score_properties.2.2.2.2 labs_invalid2 "y" rfl).2.1,
    (laboratory_score_properties.2.2.2.2 labs_invalid2 "y" rfl).2.2⟩
  · refine laboratory_score_properties.2.1 labs_normal ?_ ?_ ?_
    · intro v hv
      rw [show labs_normal.lookup "wbc" = some (.num 8) from rfl] at hv
      injection hv with hv
      exact ⟨8, hv.symm, by norm_num, by norm_num⟩
    · intro v hv
      rw [show labs_normal.lookup "crp" = some (.num 10) from rfl] at hv
      injection hv with hv
      exact ⟨10, hv.symm, by norm_num⟩
    · intro v hv
      rw [show pct_value labs_normal = none from rfl] at hv
      cases hv
  · exact (laboratory_score_properties.2.2.1 labs_invalid "abc" rfl).2.1
  · exact (laboratory_score_properties.2.2.1 labs_invalid "abc" rfl).2.2

/-- C10: a stored procalcitonin of exactly 0 is Python-falsy, so the code
falls back to the `pct` key; with `pct` absent no rationale line is
produced at all, while any non-zero sub-0.5 value yields the "scăzută (+0)"
line. -/
theorem pct_zero_treated_as_absent :
    (∀ labs : Labs, labs.lookup "procalcitonina" = some (.num 0) →
      pct_value labs = labs.lookup "pct") ∧
    (∀ labs : Labs, labs.lookup "procalcitonina" = some (.num 0) →
      labs.lookup "pct" = none → score_pct labs = (0, [])) ∧
    (∀ (labs : Labs) (q : ℚ), labs.lookup "procalcitonina" = some (.num q) →
      q ≠ 0 → q < 0.5 →
      score_pct labs =
        (0, ["Procalcitonină " ++ toString q ++ " ng/mL — scăzută (+0)"])) := by
  have key : ∀ labs : Labs, labs.lookup "procalcitonina" = some (.num 0) →
      pct_value labs = labs.lookup "pct" := by
    intro labs h
    unfold pct_value
    rw [h]
    simp [LabValue.falsy]
  refine ⟨key, ?_, ?_⟩
  · intro labs h hpct
    unfold score_pct
    rw [key labs h, hpct]
  · intro labs q h hq0 hq5
    have hv : pct_value labs = some (.num q) := by
      unfold pct_value
      rw [h]
      simp [LabValue.falsy, hq0]
    unfold score_pct
    split
    · next heq =>
      rw [hv] at heq
      cases heq
    · next p heq =>
      rw [hv] at heq
      injection heq with heq
      injection heq with heq
      subst heq
      rw [if_neg (by linarith), if_neg (by linarith)]
    · next s heq =>
      rw [hv] at heq
      injection heq with heq
      cases heq

/-- C10 witness: `procalcitonina = 0` with no `pct` key produces no line;
`procalcitonina = 1/4` produces the low line. -/
theorem pct_zero_treated_as_absent_witness :
    score_pct [("procalcitonina", .num 0)] = (0, []) ∧
    score_pct [("procalcitonina", .num (1/4))] =
      (0, ["Procalcitonină " ++ toString ((1:ℚ)/4) ++ " ng/mL — scăzută (+0)"]) :=
  ⟨pct_zero_treated_as_absent.2.1 _ rfl rfl,
   pct_zero_treated_as_absent.2.2 _ ((1:ℚ)/4) rfl (by norm_num) (by norm_num)⟩

end IAAM

namespace IAAM

/-- Python's `text.lower()`, modelled per character (the texts involved are
ASCII, where `str.lower` is exactly a character map). -/
def lowerChars (s : String) : List Char := s.toList.map Char.toLower

/-- The medical vocabulary of `estimate_quality` (line 278). -/
def medical_words : List String :=
  ["pacient", "analiza", "rezultat", "valoare", "normal", "crescut", "laborator"]

/-- `needle` matches at the head of `hay`. -/
def leadMatch : List Char → List Char → Bool
  | [], _ => true
  | _ :: _, [] => false
  | n :: ns, h :: hs => n == h && leadMatch ns hs

/-- Python's substring containment `needle in hay`. -/
def containsSub (needle : List Char) : List Char → Bool
  | [] => leadMatch needle []
  | h :: hs => leadMatch needle (h :: hs) || containsSub needle hs

/-- Consume a maximal run of digits (the greedy `\d+`). -/
def skipDigits : List Char → List Char
  | [] => []
  | c :: cs => if c.isDigit then skipDigits cs else c :: cs

theorem skipDigits_length (l : List Char) : (skipDigits l).length ≤ l.length := by
  induction l with
  | nil => simp [skipDigits]
  | cons c cs ih =>
    simp only [skipDigits]
    split
    · exact Nat.le_succ_of_le ih
    · exact Nat.le_refl _

/-- After the integer digits, the optional greedy fractional part
`(?:\.\d+)?`: a dot followed by at least one digit consumes the dot and the
digit run, anything else consumes nothing. -/
def numTail : List Char → List Char
  | '.' :: d :: ds => if d.isDigit then skipDigits ds else '.' :: d :: ds
  | r => r

theorem numTail_length (l : List Char) : (numTail l).length ≤ l.length := by
  unfold numTail
  split
  · next d ds =>
    split
    · have := skipDigits_length ds
      simp only [List.length_cons]
      omega
    · exact Nat.le_refl _
  · exact Nat.le_refl _

/-- Number of matches of `\d+(?:\.\d+)?` in the text, scanning left to
right with non-overlapping greedy matches — the semantics of `re.findall`
at line 283. Recursion on a fuel that starts at the text length; each
step consumes at least one character (`numTail_length`,
`skipDigits_length`), so the fuel never runs out on the real argument. -/
def countNumbersAux : Nat → List Char → Nat
  | 0, _ => 0
  | _ + 1, [] => 0
  | fuel + 1, c :: cs =>
    if c.isDigit then 1 + countNumbersAux fuel (numTail (skipDigits cs))
    else countNumbersAux fuel cs

def countNumbers (l : List Char) : Nat := countNumbersAux l.length l

/-- Python's `\w` (word character) on the relevant alphabet:
alphanumeric or underscore. -/
def isWordChar (c : Char) : Bool := c.isAlphanum || c == '_'

/-- A "weird" character per the class `[^\w\s\.,;:()/%-°]` of line 288.
Inside the class `%-°` is a character range, U+0025 through U+00B0, so a
character is weird iff it is not a word character, not whitespace, not one
of `.,;:()/` and not in that range. -/
def isWeird (c : Char) : Bool :=
  !(isWordChar c || c.isWhitespace || c == '.' || c == ',' || c == ';' ||
    c == ':' || c == '(' || c == ')' || c == '/' ||
    (37 ≤ c.toNat && c.toNat ≤ 176))

/-- `estimate_quality` (lines 264-294): 0 for empty text, otherwise the sum
of the four capped components (length plausibility, medical vocabulary,
numeric tokens, absence of weird characters), clamped to 100. The float
threshold `len(text) * 0.05` is modelled exactly as the rational
`len * 5/100`. -/
def estimate_quality (text : String) : ℕ :=
  if text = "" then 0
  else
    let chars := text.toList
    let len := chars.length
    let s1 : ℕ := if 50 ≤ len ∧ len ≤ 5000 then 25 else if len < 50 then 10 else 0
    let found := medical_words.countP (fun w => containsSub w.toList (lowerChars text))
    let s2 : ℕ := min (found * 5) 25
    let nums := countNumbers chars
    let s3 : ℕ := if 0 < nums then min (nums * 2) 25 else 0
    let weird := chars.countP isWeird
    let s4 : ℕ := if (weird : ℚ) < (len : ℚ) * (5 / 100) then 25 else 10
    min (s1 + s2 + s3 + s4) 100

/-- C6: empty text scores 0 with no further computation; any non-empty
text scores within [0, 100]. -/
theorem estimate_quality_range :
    estimate_quality "" = 0 ∧
    ∀ t : String, t ≠ "" → 0 ≤ estimate_quality t ∧ estimate_quality t ≤ 100 := by
  refine ⟨rfl, fun t ht => ⟨Nat.zero_le _, ?_⟩⟩
  unfold estimate_quality
  rw [if_neg ht]
  exact Nat.min_le_right _ _

/-- C6 witness at the non-empty text "abc". -/
theorem estimate_quality_range_witness :
    estimate_quality "" = 0 ∧
    0 ≤ estimate_quality "abc" ∧ estimate_quality "abc" ≤ 100 :=
  ⟨estimate_quality_range.1,
   (estimate_quality_range.2 "abc" (by decide)).1,
   (estimate_quality_range.2 "abc" (by decide)).2⟩

/-- C9: every non-empty text scores at least 10, because the
weird-character component always contributes 25 or 10. -/
theorem estimate_quality_nonempty_lower_bound :
    ∀ t : String, t ≠ "" → 10 ≤ estimate_quality t := by
  intro t ht
  unfold estimate_quality
  rw [if_neg ht]
  refine le_min ?_ (by norm_num)
  split_ifs <;> omega

/-- C9 witness at the non-empty text "zzz". -/
theorem estimate_quality_nonempty_lower_bound_witness :
    10 ≤ estimate_quality "zzz" :=
  estimate_quality_nonempty_lower_bound "zzz" (by decide)

end IAAM

namespace IAAM

/-- Regular expressions as used by the patterns of
`extract_medical_values` (lines 232-252): alternation, concatenation,
Kleene star, literal characters, `.` (any character except newline), and
character classes such as `\s`. -/
inductive RE where
  | emp
  | eps
  | anyc
  | lit (c : Char)
  | cls (p : Char → Bool)
  | seq (a b : RE)
  | alt (a b : RE)
  | star (a : RE)

/-- The regex accepts the empty string. -/
def reNullable : RE → Bool
  | .emp => false
  | .eps => true
  | .anyc => false
  | .lit _ => false
  | .cls _ => false
  | .seq a b => reNullable a && reNullable b
  | .alt a b => reNullable a || reNullable b
  | .star _ => true

/-- Brzozowski derivative of a regex by one character. -/
def rderiv : RE → Char → RE
  | .emp, _ => .emp
  | .eps, _ => .emp
  | .anyc, c => if c == '\n' then .emp else .eps
  | .lit d, c => if c == d then .eps else .emp
  | .cls p, c => if p c then .eps else .emp
  | .seq a b, c =>
    if reNullable a then .alt (.seq (rderiv a c) b) (rderiv b c)
    else .seq (rderiv a c) b
  | .alt a b, c => .alt (rderiv a c) (rderiv b c)
  | .star a, c => .seq (rderiv a c) (.star a)

/-- Some prefix of the character list matches `r`. -/
def matchStart (r : RE) : List Char → Bool
  | [] => reNullable r
  | c :: cs => reNullable r || matchStart (rderiv r c) cs

/-- Python's `re.search`: some substring of the character list (a prefix of
some suffix) matches `r`. -/
def reSearch (r : RE) : List Char → Bool
  | [] => matchStart r []
  | c :: cs => matchStart r (c :: cs) || reSearch r cs

/-- The regex matching the literal string `s`. -/
def strRE (s : String) : RE :=
  s.toList.foldr (fun c r => RE.seq (.lit c) r) RE.eps

/-- `\s` — a whitespace character. -/
def wsRE : RE := RE.cls Char.isWhitespace

/-- `r+`. -/
def plusRE (r : RE) : RE := .seq r (.star r)

/-- `r?`. -/
def optRE (r : RE) : RE := .alt .eps r

/-- `escherichia\s+coli|e\.?\s*coli` (line 233). -/
def ecoli_re : RE :=
  .alt (.seq (strRE "escherichia") (.seq (plusRE wsRE) (strRE "coli")))
    (.seq (.lit 'e') (.seq (optRE (.lit '.')) (.seq (.star wsRE) (strRE "coli"))))

/-- `klebsiella\s+pneumoniae` (line 234). -/
def klebsiella_re : RE :=
  .seq (strRE "klebsiella") (.seq (plusRE wsRE) (strRE "pneumoniae"))

/-- `pseudomonas\s+aeruginosa` (line 235). -/
def pseudomonas_re : RE :=
  .seq (strRE "pseudomonas") (.seq (plusRE wsRE) (strRE "aeruginosa"))

/-- `staphylococcus\s+aureus` (line 236). -/
def staph_re : RE :=
  .seq (strRE "staphylococcus") (.seq (plusRE wsRE) (strRE "aureus"))

/-- `acinetobacter\s+baumannii` (line 237). -/
def acinetobacter_re : RE :=
  .seq (strRE "acinetobacter") (.seq (plusRE wsRE) (strRE "baumannii"))

/-- The `bacteria_patterns` table (lines 232-238), in declaration order. -/
def bacteria_patterns : List (RE × String) :=
  [(ecoli_re, "Escherichia coli"),
   (klebsiella_re, "Klebsiella pneumoniae"),
   (pseudomonas_re, "Pseudomonas aeruginosa"),
   (staph_re, "Staphylococcus aureus"),
   (acinetobacter_re, "Acinetobacter baumannii")]

/-- `esbl\+?|extended.spectrum` (line 248). -/
def esbl_re : RE :=
  .alt (.seq (strRE "esbl") (optRE (.lit '+')))
    (.seq (strRE "extended") (.seq .anyc (strRE "spectrum")))

/-- `mrsa|methicillin.resistant` (line 249). -/
def mrsa_re : RE :=
  .alt (strRE "mrsa") (.seq (strRE "methicillin") (.seq .anyc (strRE "resistant")))

/-- `vre|vancomycin.resistant` (line 250). -/
def vre_re : RE :=
  .alt (strRE "vre") (.seq (strRE "vancomycin") (.seq .anyc (strRE "resistant")))

/-- `cre|carbapenem.resistant` (line 251). -/
def cre_re : RE :=
  .alt (strRE "cre") (.seq (strRE "carbapenem") (.seq .anyc (strRE "resistant")))

/-- The `resistance_patterns` table (lines 247-252), in declaration order. -/
def resistance_patterns : List (RE × String) :=
  [(esbl_re, "ESBL"), (mrsa_re, "MRSA"), (vre_re, "VRE"), (cre_re, "CRE")]

/-- The organism-detection loop of `extract_medical_values` (lines
240-244): the first pattern in declaration order that matches the lowered
text sets `bacteria_name` (and the loop breaks). -/
def extract_bacteria (text : String) : Option String :=
  (bacteria_patterns.find? (fun p => reSearch p.1 (lowerChars text))).map Prod.snd

/-- The `bacteria_found` flag (line 242): set exactly when the organism
loop finds a match. -/
def bacteria_found (text : String) : Bool := (extract_bacteria text).isSome

/-- The resistance-detection loop of `extract_medical_values` (lines
254-257): every matching pattern appends its canonical tag, in declaration
order. -/
def extract_resistances (text : String) : List String :=
  (resistance_patterns.filter (fun p => reSearch p.1 (lowerChars text))).map Prod.snd

/-- C8: organism detection is first-match-wins while resistance detection
collects every match: whenever the E. coli pattern (first in declaration
order) and the MRSA pattern both match the lowered text, the extracted
organism is "Escherichia coli" with the found flag set, and "MRSA" is
among the extracted resistance tags. -/
theorem organism_first_match_resistances_collect (text : String)
    (h1 : reSearch ecoli_re (lowerChars text) = true)
    (h2 : reSearch mrsa_re (lowerChars text) = true) :
    extract_bacteria text = some "Escherichia coli" ∧
    bacteria_found text = true ∧
    "MRSA" ∈ extract_resistances text := by
  have hfind : List.find? (fun p : RE × String => reSearch p.1 (lowerChars text))
      [(ecoli_re, "Escherichia coli"), (klebsiella_re, "Klebsiella pneumoniae"),
       (pseudomonas_re, "Pseudomonas aeruginosa"),
       (staph_re, "Staphylococcus aureus"),
       (acinetobacter_re, "Acinetobacter baumannii")] =
      some (ecoli_re, "Escherichia coli") :=
    List.find?_cons_of_pos _ h1
  have hb : extract_bacteria text = some "Escherichia coli" := by
    unfold extract_bacteria bacteria_patterns
    rw [hfind]
    rfl
  refine ⟨hb, ?_, ?_⟩
  · unfold bacteria_found
    rw [hb]
    rfl
  · unfold extract_resistances
    exact List.mem_map.2
      ⟨(mrsa_re, "MRSA"),
       List.mem_filter.2 ⟨by simp [resistance_patterns], h2⟩, rfl⟩

/-- C8 witness: the concrete text "E. coli si MRSA". -/
theorem organism_first_match_resistances_collect_witness :
    extract_bacteria "E. coli si MRSA" = some "Escherichia coli" ∧
    bacteria_found "E. coli si MRSA" = true ∧
    "MRSA" ∈ extract_resistances "E. coli si MRSA" :=
  organism_first_match_resistances_collect "E. coli si MRSA"
    (by decide) (by decide)

end IAAM
